import Mathlib

/-!
Shallow embedding of `src/recommendation_engine.py` (class `UniversityRecommender`).

Python dictionaries for university records and user profiles are modelled as
structures whose fields are `Option`-valued; `d.get(key, default)` becomes
`field.getD default`.  Python floats are modelled as exact rationals `ℚ`;
the value `float('inf')` that `recommend` passes to the budget filter is
modelled by working in `WithTop ℚ` at that call site.  `round(x, 2)` is
Python's banker's rounding to two decimals, modelled exactly on `ℚ` by
`roundHalfEven`.  List comprehensions `[u for u in l if c]` become
`List.filter`; the stable `list.sort(key=..., reverse=True)` becomes
`List.mergeSort` with the comparator "later score ≤ earlier score", which is
extensionally the unique stable descending sort by key.
-/

/-- University record: one JSON object of the dataset.  Every field a filter or
the scoring function reads is optional, as in the Python dicts; `match_score`
is the field `rank_universities` adds to a copy of the record. -/
structure University where
  name : Option String := none
  country : Option String := none
  gpa_min : Option ℚ := none
  gpa_competitive : Option ℚ := none
  tuition_usd : Option ℚ := none
  test_benchmark : Option ℚ := none
  ielts_min : Option ℚ := none
  world_rank : Option ℚ := none
  top_sectors : Option String := none
  match_score : Option ℚ := none
  deriving DecidableEq, Repr

/-- User profile: the dictionary passed to `recommend`. -/
structure UserProfile where
  gpa : Option ℚ := none
  budget : Option ℚ := none
  test_score : Option ℚ := none
  ielts_score : Option ℚ := none
  preferred_countries : Option (List String) := none
  preferred_sectors : Option (List String) := none
  deriving DecidableEq, Repr

/-- Banker's rounding of a rational to the nearest integer (ties to even),
the rounding mode of Python's builtin `round`. -/
def roundHalfEven (q : ℚ) : ℤ :=
  if q - ⌊q⌋ < 1/2 then ⌊q⌋
  else if 1/2 < q - ⌊q⌋ then ⌊q⌋ + 1
  else if 2 ∣ ⌊q⌋ then ⌊q⌋ else ⌊q⌋ + 1

/-- Python's `round(q, 2)`. -/
def round2 (q : ℚ) : ℚ := (roundHalfEven (q * 100) : ℚ) / 100

/-- `filter_by_gpa`: keep universities with `gpa >= u.get('gpa_min', 0)`. -/
def filter_by_gpa (universities : List University) (gpa : ℚ) : List University :=
  universities.filter fun u => decide (u.gpa_min.getD 0 ≤ gpa)

/-- `filter_by_budget`: keep universities with `u.get('tuition_usd', 0) <= budget`.
The budget is a Python float, which may be `float('inf')` when `recommend`
supplies the default for a missing `budget` key, hence `WithTop ℚ`. -/
def filter_by_budget (universities : List University) (budget : WithTop ℚ) : List University :=
  universities.filter fun u => decide ((u.tuition_usd.getD 0 : WithTop ℚ) ≤ budget)

/-- `filter_by_test_score`: keep iff
`abs(u.get('test_benchmark', 0) - test_score) <= tolerance or
 test_score >= u.get('test_benchmark', 0)`; the Python parameter default is
`tolerance=50`. -/
def filter_by_test_score (universities : List University) (test_score : ℚ)
    (tolerance : ℚ := 50) : List University :=
  universities.filter fun u =>
    decide (|u.test_benchmark.getD 0 - test_score| ≤ tolerance) ||
      decide (u.test_benchmark.getD 0 ≤ test_score)

/-- `filter_by_ielts`: keep universities with `ielts_score >= u.get('ielts_min', 0)`. -/
def filter_by_ielts (universities : List University) (ielts_score : ℚ) : List University :=
  universities.filter fun u => decide (u.ielts_min.getD 0 ≤ ielts_score)

/-- `filter_by_country`: `u.get('country') in countries`; a record with no
country field is never a member.  Empty country list returns the input. -/
def filter_by_country (universities : List University) (countries : List String) :
    List University :=
  if countries.isEmpty then universities
  else universities.filter fun u =>
    match u.country with
    | some c => decide (c ∈ countries)
    | none => false

/-- Python's substring test `needle in hay` on lists of characters. -/
def containsSub (needle : List Char) : List Char → Bool
  | [] => needle.isEmpty
  | c :: rest => needle.isPrefixOf (c :: rest) || containsSub needle rest

/-- `filter_by_sectors`: keep a record iff some keyword of `sectors`,
lower-cased, is a substring of the record's lower-cased `top_sectors` text.
Empty sector list returns the input. -/
def filter_by_sectors (universities : List University) (sectors : List String) :
    List University :=
  if sectors.isEmpty then universities
  else universities.filter fun u =>
    sectors.any fun sector =>
      containsSub sector.toLower.toList (u.top_sectors.getD "").toLower.toList

/-- GPA component of `calculate_match_score` (30 points max): if
`gpa_competitive > 0`, contributes `min(gpa / gpa_competitive, 1.1) * 30`. -/
def gpaScore (university : University) (user_profile : UserProfile) : ℚ :=
  let gpa := user_profile.gpa.getD 0
  let gpa_competitive := university.gpa_competitive.getD 0
  if 0 < gpa_competitive then min (gpa / gpa_competitive) (11/10) * 30 else 0

/-- Budget component of `calculate_match_score` (25 points max): if
`budget > 0`, contributes `(1 - tuition/budget if tuition <= budget else 0) * 25`. -/
def budgetScore (university : University) (user_profile : UserProfile) : ℚ :=
  let budget := user_profile.budget.getD 0
  let tuition := university.tuition_usd.getD 0
  if 0 < budget then (if tuition ≤ budget then 1 - tuition / budget else 0) * 25 else 0

/-- Test-score proximity component of `calculate_match_score` (20 points max): if
`test_benchmark > 0`, contributes `max(0, 1 - abs(test_score - test_benchmark)/200) * 20`. -/
def testProximityScore (university : University) (user_profile : UserProfile) : ℚ :=
  let test_score := user_profile.test_score.getD 0
  let test_benchmark := university.test_benchmark.getD 0
  if 0 < test_benchmark then
    let score_diff := |test_score - test_benchmark|
    max 0 (1 - score_diff / 200) * 20
  else 0

/-- World-rank component of `calculate_match_score` (25 points max):
`max(0, 1 - u.get('world_rank', 100)/100) * 25`. -/
def rankScore (university : University) : ℚ :=
  let world_rank := university.world_rank.getD 100
  max 0 (1 - world_rank / 100) * 25

/-- `calculate_match_score`: the running sum `score += ...` of the four
components, returned as `round(score, 2)`. -/
def calculate_match_score (university : University) (user_profile : UserProfile) : ℚ :=
  round2 (gpaScore university user_profile + budgetScore university user_profile +
    testProximityScore university user_profile + rankScore university)

/-- The list `ranked` built by `rank_universities` before sorting: each
university copied with its `match_score` attached. -/
def scoredList (universities : List University) (user_profile : UserProfile) :
    List University :=
  universities.map fun university =>
    { university with match_score := some (calculate_match_score university user_profile) }

/-- Comparator of `ranked.sort(key=lambda x: x['match_score'], reverse=True)`:
a stable descending sort by score keeps `a` before `b` iff `score b ≤ score a`. -/
def scoreGE (a b : University) : Bool :=
  decide (b.match_score.getD 0 ≤ a.match_score.getD 0)

/-- `rank_universities`: attach match scores to copies, sort by score descending
(stably, as Python's `list.sort` is stable). -/
def rank_universities (universities : List University) (user_profile : UserProfile) :
    List University :=
  (scoredList universities user_profile).mergeSort scoreGE

/-- The budget value `recommend` passes to `filter_by_budget`:
`user_profile.get('budget', float('inf'))`. -/
def budgetOrInf (user_profile : UserProfile) : WithTop ℚ :=
  (user_profile.budget.map (fun b => (b : WithTop ℚ))).getD ⊤

/-- The filtering stage of `recommend`: the four mandatory filters (GPA, budget,
test score with tolerance 100, IELTS) in source order, then the two optional
filters applied only when the corresponding preference list is non-empty. -/
def filteredUniversities (db : List University) (user_profile : UserProfile) :
    List University :=
  let universities := db
  let universities := filter_by_gpa universities (user_profile.gpa.getD 0)
  let universities := filter_by_budget universities (budgetOrInf user_profile)
  let universities := filter_by_test_score universities (user_profile.test_score.getD 0) 100
  let universities := filter_by_ielts universities (user_profile.ielts_score.getD 0)
  let preferred_countries := user_profile.preferred_countries.getD []
  let universities :=
    if preferred_countries.isEmpty then universities
    else filter_by_country universities preferred_countries
  let preferred_sectors := user_profile.preferred_sectors.getD []
  if preferred_sectors.isEmpty then universities
  else filter_by_sectors universities preferred_sectors

/-- `recommend`: the full pipeline of `UniversityRecommender.recommend`, with
`self.universities = db` (the `.copy()` of an immutable list is the list itself). -/
def recommend (db : List University) (user_profile : UserProfile) : List University :=
  rank_universities (filteredUniversities db user_profile) user_profile

/-! ### Membership lemmas for the filters -/

theorem mem_filter_by_gpa {universities : List University} {gpa : ℚ} {u : University} :
    u ∈ filter_by_gpa universities gpa ↔ u ∈ universities ∧ u.gpa_min.getD 0 ≤ gpa := by
  simp [filter_by_gpa, List.mem_filter]

theorem mem_filter_by_budget {universities : List University} {budget : WithTop ℚ}
    {u : University} :
    u ∈ filter_by_budget universities budget ↔
      u ∈ universities ∧ (u.tuition_usd.getD 0 : WithTop ℚ) ≤ budget := by
  simp [filter_by_budget, List.mem_filter]

theorem mem_filter_by_test_score {universities : List University} {test_score tolerance : ℚ}
    {u : University} :
    u ∈ filter_by_test_score universities test_score tolerance ↔
      u ∈ universities ∧ (|u.test_benchmark.getD 0 - test_score| ≤ tolerance ∨
        u.test_benchmark.getD 0 ≤ test_score) := by
  simp [filter_by_test_score, List.mem_filter]

theorem mem_filter_by_ielts {universities : List University} {ielts_score : ℚ}
    {u : University} :
    u ∈ filter_by_ielts universities ielts_score ↔
      u ∈ universities ∧ u.ielts_min.getD 0 ≤ ielts_score := by
  simp [filter_by_ielts, List.mem_filter]

theorem mem_of_filter_by_country {universities : List University} {countries : List String}
    {u : University} (h : u ∈ filter_by_country universities countries) : u ∈ universities := by
  unfold filter_by_country at h
  split at h
  · exact h
  · exact (List.mem_filter.mp h).1

theorem mem_of_filter_by_sectors {universities : List University} {sectors : List String}
    {u : University} (h : u ∈ filter_by_sectors universities sectors) : u ∈ universities := by
  unfold filter_by_sectors at h
  split at h
  · exact h
  · exact (List.mem_filter.mp h).1

theorem mem_filteredUniversities {db : List University} {p : UserProfile} {u : University}
    (h : u ∈ filteredUniversities db p) :
    u ∈ db ∧ u.gpa_min.getD 0 ≤ p.gpa.getD 0 ∧
      (u.tuition_usd.getD 0 : WithTop ℚ) ≤ budgetOrInf p ∧
      (|u.test_benchmark.getD 0 - p.test_score.getD 0| ≤ 100 ∨
        u.test_benchmark.getD 0 ≤ p.test_score.getD 0) ∧
      u.ielts_min.getD 0 ≤ p.ielts_score.getD 0 := by
  simp only [filteredUniversities] at h
  have h2 : u ∈ filter_by_ielts (filter_by_test_score (filter_by_budget
      (filter_by_gpa db (p.gpa.getD 0)) (budgetOrInf p)) (p.test_score.getD 0) 100)
      (p.ielts_score.getD 0) := by
    split at h
    · split at h
      · exact h
      · exact mem_of_filter_by_country h
    · have h' := mem_of_filter_by_sectors h
      split at h'
      · exact h'
      · exact mem_of_filter_by_country h'
  rw [mem_filter_by_ielts, mem_filter_by_test_score, mem_filter_by_budget,
    mem_filter_by_gpa] at h2
  tauto

theorem mem_scoredList {universities : List University} {p : UserProfile} {r : University} :
    r ∈ scoredList universities p ↔ ∃ u ∈ universities,
      r = { u with match_score := some (calculate_match_score u p) } := by
  simp only [scoredList, List.mem_map]
  constructor
  · rintro ⟨u, hu, rfl⟩; exact ⟨u, hu, rfl⟩
  · rintro ⟨u, hu, rfl⟩; exact ⟨u, hu, rfl⟩

theorem mem_rank_universities {universities : List University} {p : UserProfile}
    {r : University} :
    r ∈ rank_universities universities p ↔ r ∈ scoredList universities p := by
  simp [rank_universities, List.mem_mergeSort]

theorem recommend_mem {db : List University} {p : UserProfile} {r : University}
    (h : r ∈ recommend db p) :
    ∃ u, u ∈ filteredUniversities db p ∧
      r = { u with match_score := some (calculate_match_score u p) } := by
  rw [recommend, mem_rank_universities, mem_scoredList] at h
  obtain ⟨u, hu, hr⟩ := h
  exact ⟨u, hu, hr⟩

/-! ### Properties of banker's rounding -/

theorem roundHalfEven_ge_floor (q : ℚ) : ⌊q⌋ ≤ roundHalfEven q := by
  unfold roundHalfEven
  split_ifs <;> omega

theorem roundHalfEven_le_floor_add_one (q : ℚ) : roundHalfEven q ≤ ⌊q⌋ + 1 := by
  unfold roundHalfEven
  split_ifs <;> omega

theorem roundHalfEven_mono {a b : ℚ} (h : a ≤ b) : roundHalfEven a ≤ roundHalfEven b := by
  rcases lt_or_eq_of_le (Int.floor_mono h) with hf | hf
  · calc roundHalfEven a ≤ ⌊a⌋ + 1 := roundHalfEven_le_floor_add_one a
    _ ≤ ⌊b⌋ := by omega
    _ ≤ roundHalfEven b := roundHalfEven_ge_floor b
  · have hfrac : a - ⌊a⌋ ≤ b - ⌊b⌋ := by
      rw [← hf]
      linarith
    unfold roundHalfEven
    rw [← hf]
    split_ifs <;> first | omega | linarith

theorem round2_mono {a b : ℚ} (h : a ≤ b) : round2 a ≤ round2 b := by
  unfold round2
  have := roundHalfEven_mono (by linarith : a * 100 ≤ b * 100)
  have : (roundHalfEven (a * 100) : ℚ) ≤ (roundHalfEven (b * 100) : ℚ) := by exact_mod_cast this
  linarith

/-! ### A concrete record and profile (the worked example of the design notes) -/

/-- The example record of the spec's testable-properties section. -/
def exampleRecord : University where
  gpa_min := some 3
  gpa_competitive := some (36/10)
  tuition_usd := some 30000
  test_benchmark := some 1380
  ielts_min := some (13/2)
  world_rank := some 40

/-- The example profile of the spec's testable-properties section. -/
def exampleProfile : UserProfile where
  gpa := some (7/2)
  budget := some 40000
  test_score := some 1400
  ielts_score := some 7

theorem gpaScore_example : gpaScore exampleRecord exampleProfile = 175/6 := by
  norm_num [gpaScore, exampleRecord, exampleProfile]

theorem budgetScore_example : budgetScore exampleRecord exampleProfile = 25/4 := by
  norm_num [budgetScore, exampleRecord, exampleProfile]

theorem testProximityScore_example : testProximityScore exampleRecord exampleProfile = 18 := by
  norm_num [testProximityScore, exampleRecord, exampleProfile, abs_of_nonneg]

theorem rankScore_example : rankScore exampleRecord = 15 := by
  norm_num [rankScore, exampleRecord]

theorem score_example : calculate_match_score exampleRecord exampleProfile = 3421/50 := by
  rw [calculate_match_score, gpaScore_example, budgetScore_example,
    testProximityScore_example, rankScore_example]
  norm_num [round2, roundHalfEven]

theorem filtered_example :
    filteredUniversities [exampleRecord] exampleProfile = [exampleRecord] := by
  norm_num [filteredUniversities, filter_by_gpa, filter_by_budget, filter_by_test_score,
    filter_by_ielts, budgetOrInf, exampleRecord, exampleProfile, List.filter]

theorem recommend_example :
    recommend [exampleRecord] exampleProfile =
      [{ exampleRecord with match_score := some (3421/50) }] := by
  rw [recommend, filtered_example, rank_universities]
  simp [scoredList, score_example]

/-- C1: for every dataset and profile with a `budget` key, every record returned
by `recommend` has `tuition_usd <= budget` (missing tuition treated as 0); and
every record passing `filter_by_budget` satisfies `tuition <= budget`, so the
"otherwise 0" affordability branch of scoring is unreachable in the pipeline. -/
theorem recommend_respects_budget (db us : List University) (p : UserProfile) (b : ℚ)
    (hb : p.budget = some b) :
    (∀ r ∈ recommend db p, r.tuition_usd.getD 0 ≤ b) ∧
    (∀ u ∈ filter_by_budget us (b : WithTop ℚ), u.tuition_usd.getD 0 ≤ b) := by
  constructor
  · intro r hr
    obtain ⟨u, hu, rfl⟩ := recommend_mem hr
    have ht := (mem_filteredUniversities hu).2.2.1
    rw [budgetOrInf, hb] at ht
    simpa using ht
  · intro u hu
    have := (mem_filter_by_budget.mp hu).2
    simpa using this

/-- C1 witness: the example record returned for the example profile has tuition
30000 within the profile budget 40000. -/
theorem recommend_respects_budget_witness :
    ({ exampleRecord with match_score := some (3421/50) } : University).tuition_usd.getD 0
      ≤ 40000 :=
  (recommend_respects_budget [exampleRecord] [exampleRecord] exampleProfile 40000 rfl).1
    _ (by rw [recommend_example]; exact List.mem_singleton.mpr rfl)

/-- C2: for every dataset and profile with a `gpa` key, every record returned by
`recommend` satisfies `profile.gpa >= record.gpa_min`, missing `gpa_min`
defaulting to 0. -/
theorem recommend_respects_gpa_min (db : List University) (p : UserProfile) (g : ℚ)
    (hg : p.gpa = some g) :
    ∀ r ∈ recommend db p, r.gpa_min.getD 0 ≤ g := by
  intro r hr
  obtain ⟨u, hu, rfl⟩ := recommend_mem hr
  have ht := (mem_filteredUniversities hu).2.1
  rw [hg] at ht
  simpa using ht

/-- C2 witness: the example record returned for the example profile has
`gpa_min = 3`, below the profile GPA 3.5. -/
theorem recommend_respects_gpa_min_witness :
    ({ exampleRecord with match_score := some (3421/50) } : University).gpa_min.getD 0
      ≤ 7/2 :=
  recommend_respects_gpa_min [exampleRecord] exampleProfile (7/2) rfl
    _ (by rw [recommend_example]; exact List.mem_singleton.mpr rfl)

/-- C4 counterexample: on the spec's worked example the code computes a match
score of 68.42, not the claimed 80.92 (the spec evaluated the affordability
term `(1 - 30000/40000) * 25` as 18.75 instead of 6.25). -/
theorem example_score_ne_8092_div_100 :
    calculate_match_score exampleRecord exampleProfile ≠ 8092/100 := by
  rw [score_example]
  norm_num

/-- C4 amended: the example record passes all four mandatory filters of the
pipeline (it is returned by `recommend`) and its match score is 68.42,
computed from the components 175/6 (≈29.17), 6.25, 18.0 and 15.0. -/
theorem example_passes_filters_with_score :
    recommend [exampleRecord] exampleProfile =
      [{ exampleRecord with match_score := some (3421/50) }] ∧
    calculate_match_score exampleRecord exampleProfile = 3421/50 ∧
    gpaScore exampleRecord exampleProfile = 175/6 ∧
    budgetScore exampleRecord exampleProfile = 25/4 ∧
    testProximityScore exampleRecord exampleProfile = 18 ∧
    rankScore exampleRecord = 15 :=
  ⟨recommend_example, score_example, gpaScore_example, budgetScore_example,
    testProximityScore_example, rankScore_example⟩

/-! ### Bounds on the four score components -/

theorem gpaScore_nonneg (u : University) {p : UserProfile} (hg : 0 ≤ p.gpa.getD 0) :
    0 ≤ gpaScore u p := by
  unfold gpaScore
  dsimp only
  split_ifs with hgc
  · exact mul_nonneg (le_min (div_nonneg hg hgc.le) (by norm_num)) (by norm_num)
  · exact le_refl 0

theorem gpaScore_le (u : University) (p : UserProfile) : gpaScore u p ≤ 33 := by
  unfold gpaScore
  dsimp only
  split_ifs with hgc
  · have h1 : min (p.gpa.getD 0 / u.gpa_competitive.getD 0) (11/10) ≤ 11/10 :=
      min_le_right _ _
    linarith [mul_le_mul_of_nonneg_right h1 (by norm_num : (0:ℚ) ≤ 30)]
  · norm_num

theorem budgetScore_nonneg (u : University) (p : UserProfile) : 0 ≤ budgetScore u p := by
  unfold budgetScore
  dsimp only
  split_ifs with hb htb
  · have : u.tuition_usd.getD 0 / p.budget.getD 0 ≤ 1 := (div_le_one hb).mpr htb
    nlinarith
  · norm_num
  · exact le_refl 0

theorem budgetScore_le {u : University} (p : UserProfile) (ht : 0 ≤ u.tuition_usd.getD 0) :
    budgetScore u p ≤ 25 := by
  unfold budgetScore
  dsimp only
  split_ifs with hb htb
  · have : 0 ≤ u.tuition_usd.getD 0 / p.budget.getD 0 := div_nonneg ht hb.le
    nlinarith
  · norm_num
  · norm_num

theorem testProximityScore_nonneg (u : University) (p : UserProfile) :
    0 ≤ testProximityScore u p := by
  unfold testProximityScore
  dsimp only
  split_ifs
  · exact mul_nonneg (le_max_left 0 _) (by norm_num)
  · exact le_refl 0

theorem testProximityScore_le (u : University) (p : UserProfile) :
    testProximityScore u p ≤ 20 := by
  unfold testProximityScore
  dsimp only
  split_ifs
  · have hd : (0:ℚ) ≤ |p.test_score.getD 0 - u.test_benchmark.getD 0| := abs_nonneg _
    have h1 : max 0 (1 - |p.test_score.getD 0 - u.test_benchmark.getD 0| / 200) ≤ 1 := by
      apply max_le (by norm_num)
      have : (0:ℚ) ≤ |p.test_score.getD 0 - u.test_benchmark.getD 0| / 200 :=
        div_nonneg hd (by norm_num)
      linarith
    linarith [mul_le_mul_of_nonneg_right h1 (by norm_num : (0:ℚ) ≤ 20)]
  · norm_num

theorem rankScore_nonneg (u : University) : 0 ≤ rankScore u :=
  mul_nonneg (le_max_left 0 _) (by norm_num)

theorem rankScore_le {u : University} (hw : 1 ≤ u.world_rank.getD 100) :
    rankScore u ≤ 99/4 := by
  unfold rankScore
  have h1 : max 0 (1 - u.world_rank.getD 100 / 100) ≤ 99/100 := by
    apply max_le (by norm_num)
    have : (1:ℚ)/100 ≤ u.world_rank.getD 100 / 100 := by linarith
    linarith
  linarith [mul_le_mul_of_nonneg_right h1 (by norm_num : (0:ℚ) ≤ 25)]

theorem round2_zero : round2 0 = 0 := by
  norm_num [round2, roundHalfEven]

/-- C3 amended: for a record and profile with fields in their documented ranges
(GPA in [0,4], budget >= 0, test score in [400,1600], IELTS in [0,9],
tuition >= 0, world rank >= 1), `calculate_match_score` lies in [0, 103]
(the GPA over-qualification cap of 1.1 pushes the ceiling above 100). -/
theorem calculate_match_score_in_range (u : University) (p : UserProfile)
    (hg0 : 0 ≤ p.gpa.getD 0) (_hg4 : p.gpa.getD 0 ≤ 4)
    (_hb : 0 ≤ p.budget.getD 0)
    (_hts : 400 ≤ p.test_score.getD 0) (_hts2 : p.test_score.getD 0 ≤ 1600)
    (_hi : 0 ≤ p.ielts_score.getD 0) (_hi2 : p.ielts_score.getD 0 ≤ 9)
    (ht : 0 ≤ u.tuition_usd.getD 0)
    (hw : 1 ≤ u.world_rank.getD 100) :
    0 ≤ calculate_match_score u p ∧ calculate_match_score u p ≤ 103 := by
  have h1 := gpaScore_nonneg u hg0
  have h2 := gpaScore_le u p
  have h3 := budgetScore_nonneg u p
  have h4 := budgetScore_le p ht
  have h5 := testProximityScore_nonneg u p
  have h6 := testProximityScore_le u p
  have h7 := rankScore_nonneg u
  have h8 := rankScore_le hw
  unfold calculate_match_score
  constructor
  · rw [← round2_zero]
    exact round2_mono (by linarith)
  · have h103 : round2 (411/4) = 411/4 := by norm_num [round2, roundHalfEven]
    calc round2 (gpaScore u p + budgetScore u p + testProximityScore u p + rankScore u)
        ≤ round2 (411/4) := round2_mono (by linarith)
      _ ≤ 103 := by rw [h103]; norm_num

/-- C3 witness: the example record and profile satisfy all the documented
ranges, and their match score lies in [0, 103]. -/
theorem calculate_match_score_in_range_witness :
    0 ≤ calculate_match_score exampleRecord exampleProfile ∧
      calculate_match_score exampleRecord exampleProfile ≤ 103 :=
  calculate_match_score_in_range exampleRecord exampleProfile
    (by norm_num [exampleProfile]) (by norm_num [exampleProfile])
    (by norm_num [exampleProfile]) (by norm_num [exampleProfile])
    (by norm_num [exampleProfile]) (by norm_num [exampleProfile])
    (by norm_num [exampleProfile]) (by norm_num [exampleRecord])
    (by norm_num [exampleRecord])

/-- Record achieving a match score above 100: competitive GPA 3 against an
over-qualified GPA-4 applicant, free tuition, exact test match, world rank 1. -/
def capRecord : University where
  gpa_competitive := some 3
  tuition_usd := some 0
  test_benchmark := some 1400
  world_rank := some 1

/-- Profile achieving a match score above 100 against `capRecord`. -/
def capProfile : UserProfile where
  gpa := some 4
  budget := some 40000
  test_score := some 1400
  ielts_score := some 7

/-- C3 counterexample: `capRecord` and `capProfile` satisfy every documented
range, yet the match score is 102.75 > 100, refuting the claimed [0, 100]. -/
theorem score_can_exceed_100 :
    (0 ≤ capProfile.gpa.getD 0 ∧ capProfile.gpa.getD 0 ≤ 4 ∧
      0 ≤ capProfile.budget.getD 0 ∧
      400 ≤ capProfile.test_score.getD 0 ∧ capProfile.test_score.getD 0 ≤ 1600 ∧
      0 ≤ capProfile.ielts_score.getD 0 ∧ capProfile.ielts_score.getD 0 ≤ 9 ∧
      0 ≤ capRecord.tuition_usd.getD 0 ∧ 1 ≤ capRecord.world_rank.getD 100) ∧
    ¬ calculate_match_score capRecord capProfile ≤ 100 := by
  constructor
  · norm_num [capRecord, capProfile]
  · have h : calculate_match_score capRecord capProfile = 411/4 := by
      norm_num [calculate_match_score, gpaScore, budgetScore, testProximityScore,
        rankScore, capRecord, capProfile, round2, roundHalfEven]
    rw [h]
    norm_num

/-- C5: with `gpa_competitive > 0`, the match score is monotonically
non-decreasing in the profile GPA, all other profile fields held fixed. -/
theorem score_mono_in_gpa (u : University) (p1 p2 : UserProfile) (g1 g2 : ℚ)
    (hgc : 0 < u.gpa_competitive.getD 0)
    (hb : p1.budget = p2.budget) (hts : p1.test_score = p2.test_score)
    (_hie : p1.ielts_score = p2.ielts_score)
    (_hpc : p1.preferred_countries = p2.preferred_countries)
    (_hps : p1.preferred_sectors = p2.preferred_sectors)
    (hg1 : p1.gpa = some g1) (hg2 : p2.gpa = some g2) (hg : g1 ≤ g2) :
    calculate_match_score u p1 ≤ calculate_match_score u p2 := by
  unfold calculate_match_score
  apply round2_mono
  have hbs : budgetScore u p1 = budgetScore u p2 := by
    unfold budgetScore
    rw [hb]
  have hts' : testProximityScore u p1 = testProximityScore u p2 := by
    unfold testProximityScore
    rw [hts]
  have hgs : gpaScore u p1 ≤ gpaScore u p2 := by
    unfold gpaScore
    dsimp only
    rw [hg1, hg2]
    simp only [Option.getD_some, if_pos hgc]
    have hdiv : g1 / u.gpa_competitive.getD 0 ≤ g2 / u.gpa_competitive.getD 0 :=
      (div_le_div_iff_of_pos_right hgc).mpr hg
    have hmin : min (g1 / u.gpa_competitive.getD 0) (11/10) ≤
        min (g2 / u.gpa_competitive.getD 0) (11/10) := min_le_min hdiv le_rfl
    linarith [mul_le_mul_of_nonneg_right hmin (by norm_num : (0:ℚ) ≤ 30)]
  linarith

/-- C5 witness: against the example record, raising the profile GPA from 3.4 to
3.5 does not decrease the match score. -/
theorem score_mono_in_gpa_witness :
    calculate_match_score exampleRecord { exampleProfile with gpa := some (17/5) } ≤
      calculate_match_score exampleRecord exampleProfile :=
  score_mono_in_gpa exampleRecord _ exampleProfile (17/5) (7/2)
    (by norm_num [exampleRecord]) rfl rfl rfl rfl rfl rfl rfl (by norm_num)

/-- C6: the test-score filter keeps a record iff the benchmark is within
tolerance of the test score or the test score is at least the benchmark
(missing benchmark defaulting to 0); a profile scoring at or above the
benchmark is never excluded, for any tolerance; the standalone filter defaults
the tolerance to 50; and every record `recommend` returns passed the filter at
tolerance 100. -/
theorem filter_by_test_score_spec (us : List University) (ts tol : ℚ) (u : University)
    (db : List University) (p : UserProfile) :
    (u ∈ filter_by_test_score us ts tol ↔ u ∈ us ∧
      (|u.test_benchmark.getD 0 - ts| ≤ tol ∨ ts ≥ u.test_benchmark.getD 0)) ∧
    (u ∈ us → ts ≥ u.test_benchmark.getD 0 → u ∈ filter_by_test_score us ts tol) ∧
    (filter_by_test_score us ts = filter_by_test_score us ts 50) ∧
    (∀ r ∈ recommend db p,
      |r.test_benchmark.getD 0 - p.test_score.getD 0| ≤ 100 ∨
        p.test_score.getD 0 ≥ r.test_benchmark.getD 0) := by
  refine ⟨?_, ?_, rfl, ?_⟩
  · simp only [ge_iff_le]
    exact mem_filter_by_test_score
  · intro hu hts
    exact mem_filter_by_test_score.mpr ⟨hu, Or.inr hts⟩
  · intro r hr
    obtain ⟨u', hu', rfl⟩ := recommend_mem hr
    have h := (mem_filteredUniversities hu').2.2.2.1
    simpa using h

/-- C6 witness: the example record, whose benchmark 1380 lies below the test
score 1400, passes the test-score filter at tolerance 100. -/
theorem filter_by_test_score_spec_witness :
    exampleRecord ∈ filter_by_test_score [exampleRecord] 1400 100 :=
  (filter_by_test_score_spec [exampleRecord] 1400 100 exampleRecord [] {}).2.1
    (List.mem_singleton.mpr rfl) (by norm_num [exampleRecord])

/-- C7: the country and sector filters with an empty preference list return
their input unchanged, and a profile with empty preference lists produces from
`recommend` exactly the output of the same profile with those keys absent. -/
theorem empty_preferences_noop (us db : List University) (p : UserProfile) :
    filter_by_country us [] = us ∧ filter_by_sectors us [] = us ∧
    recommend db { p with preferred_countries := some [], preferred_sectors := some [] } =
      recommend db { p with preferred_countries := none, preferred_sectors := none } :=
  ⟨rfl, rfl, rfl⟩

/-! ### The sort comparator is transitive and total -/

theorem scoreGE_trans (a b c : University) (h1 : scoreGE a b) (h2 : scoreGE b c) :
    scoreGE a c := by
  simp only [scoreGE, decide_eq_true_eq] at h1 h2 ⊢
  exact le_trans h2 h1

theorem scoreGE_total (a b : University) : scoreGE a b || scoreGE b a := by
  simp only [scoreGE, Bool.or_eq_true, decide_eq_true_eq]
  exact le_total _ _

/-- C8: the list `recommend` returns is sorted in non-increasing order of the
attached `match_score`, and within each score class the records appear in
exactly the order they had in the pre-sort scored list (stable tie-break by
insertion order). -/
theorem recommend_sorted_descending_stable (db : List University) (p : UserProfile) :
    (recommend db p).Pairwise
      (fun a b => b.match_score.getD 0 ≤ a.match_score.getD 0) ∧
    ∀ s : ℚ, (recommend db p).filter (fun r => decide (r.match_score.getD 0 = s)) =
      (scoredList (filteredUniversities db p) p).filter
        (fun r => decide (r.match_score.getD 0 = s)) := by
  constructor
  · have hp := List.sorted_mergeSort scoreGE_trans scoreGE_total
      (scoredList (filteredUniversities db p) p)
    rw [recommend, rank_universities]
    exact hp.imp (fun h => by simpa [scoreGE] using h)
  · intro s
    rw [recommend, rank_universities]
    set L := scoredList (filteredUniversities db p) p with hL
    set P : University → Bool := fun r => decide (r.match_score.getD 0 = s) with hP
    have hBpair : (L.filter P).Pairwise (fun a b => scoreGE a b = true) := by
      apply List.pairwise_of_forall_mem_list
      intro a ha b hb
      have ha' := (List.mem_filter.mp ha).2
      have hb' := (List.mem_filter.mp hb).2
      rw [hP] at ha' hb'
      simp only [decide_eq_true_eq] at ha' hb'
      simp [scoreGE, ha', hb']
    have hsub : List.Sublist (L.filter P) (L.mergeSort scoreGE) :=
      List.sublist_mergeSort scoreGE_trans scoreGE_total hBpair (List.filter_sublist L)
    have hidem : (L.filter P).filter P = L.filter P :=
      List.filter_eq_self.mpr (fun a ha => (List.mem_filter.mp ha).2)
    have hsub2 : List.Sublist (L.filter P) ((L.mergeSort scoreGE).filter P) := by
      rw [← hidem]
      exact hsub.filter P
    have hperm : ((L.mergeSort scoreGE).filter P).Perm (L.filter P) :=
      (List.mergeSort_perm L scoreGE).filter P
    exact (hsub2.eq_of_length hperm.length_eq.symm).symm

/-- C9: every record `recommend` returns is a copy of a record of the stored
dataset that survived the filters, agreeing with it on every original field and
differing only in the added `match_score` field. -/
theorem recommend_copies_dataset_records (db : List University) (p : UserProfile)
    (r : University) (hr : r ∈ recommend db p) :
    ∃ u, u ∈ db ∧ u ∈ filteredUniversities db p ∧
      r = { u with match_score := some (calculate_match_score u p) } := by
  obtain ⟨u, hu, rfl⟩ := recommend_mem hr
  exact ⟨u, (mem_filteredUniversities hu).1, hu, rfl⟩

/-- C9 witness: the single record returned for the example dataset is the
example record with only its `match_score` field set. -/
theorem recommend_copies_dataset_records_witness :
    ∃ u, u ∈ [exampleRecord] ∧ u ∈ filteredUniversities [exampleRecord] exampleProfile ∧
      ({ exampleRecord with match_score := some (3421/50) } : University) =
        { u with match_score := some (calculate_match_score u exampleProfile) } :=
  recommend_copies_dataset_records [exampleRecord] exampleProfile _
    (by rw [recommend_example]; exact List.mem_singleton.mpr rfl)

/-- C10: when the profile lacks a `budget` key, `recommend` passes
`float('inf')` to the budget filter, which then excludes nothing, while the
scoring function reads the budget as 0 so the affordability component
contributes exactly 0: two different defaults for the same missing field. -/
theorem missing_budget_two_defaults (us : List University) (p : UserProfile)
    (u : University) (h : p.budget = none) :
    budgetOrInf p = ⊤ ∧
    filter_by_budget us (budgetOrInf p) = us ∧
    budgetScore u p = 0 ∧
    calculate_match_score u p =
      round2 (gpaScore u p + testProximityScore u p + rankScore u) := by
  have hb : budgetOrInf p = ⊤ := by
    unfold budgetOrInf
    rw [h]
    rfl
  have hf : filter_by_budget us (budgetOrInf p) = us := by
    rw [hb]
    unfold filter_by_budget
    apply List.filter_eq_self.mpr
    intro a _
    simp
  have hbs : budgetScore u p = 0 := by
    unfold budgetScore
    rw [h]
    norm_num
  refine ⟨hb, hf, hbs, ?_⟩
  unfold calculate_match_score
  rw [hbs]
  have harg : gpaScore u p + 0 + testProximityScore u p + rankScore u =
      gpaScore u p + testProximityScore u p + rankScore u := by ring
  rw [harg]

/-- C10 witness: the example profile with its budget removed exercises both
defaults on the example record. -/
theorem missing_budget_two_defaults_witness :
    budgetOrInf { exampleProfile with budget := none } = ⊤ ∧
    filter_by_budget [exampleRecord] (budgetOrInf { exampleProfile with budget := none }) =
      [exampleRecord] ∧
    budgetScore exampleRecord { exampleProfile with budget := none } = 0 ∧
    calculate_match_score exampleRecord { exampleProfile with budget := none } =
      round2 (gpaScore exampleRecord { exampleProfile with budget := none } +
        testProximityScore exampleRecord { exampleProfile with budget := none } +
        rankScore exampleRecord) :=
  missing_budget_two_defaults [exampleRecord] { exampleProfile with budget := none }
    exampleRecord rfl
